import Mathlib

/-!
Shallow embedding of the PentaVision Home Assistant integration's session
client (`custom_components/pentavision/api.py`) and refresh coordinator
(`custom_components/pentavision/coordinator.py`).

The HTTP transport is modelled as an oracle (`Server`) mapping the index of
the call and the request that is put on the wire to an outcome: a response
with a status code and a JSON body, a transport-level client error
(`aiohttp.ClientError`), or expiry of the request timeout.  The hash
primitives `hashlib.sha256` and `hmac.new(..).hexdigest()` are external
library functions and are modelled as parameters (`Crypto`).  Python
mutation of `self._session_token` becomes explicit state passing: every
operation returns the updated `PentaVisionAPI` value together with its
result, the next transport call index and the list of wire requests it
issued.
-/

namespace PentaVision

/-- Endpoint constant from `const.py`. -/
def API_HANDSHAKE_INIT : String := "/api/auth/handshake/init"

/-- Endpoint constant from `const.py`. -/
def API_HANDSHAKE_COMPLETE : String := "/api/auth/handshake/complete"

/-- Endpoint constant from `const.py`. -/
def API_SESSION_REVOKE : String := "/api/auth/session/revoke"

/-- Endpoint constant from `const.py`. -/
def API_CAMERAS : String := "/api/cameras"

/-- Endpoint constant from `const.py`. -/
def API_STATUS : String := "/api/status"

/-- Endpoint template `API_MJPEG_STREAM = "/stream/mjpeg/{camera_id}"` from
`const.py`, after `.format(camera_id=...)`. -/
def API_MJPEG_STREAM (camera_id : String) : String := "/stream/mjpeg/" ++ camera_id

/-- Endpoint template `API_HLS_PLAYLIST = "/stream/hls/{camera_id}/index.m3u8"`
from `const.py`, after `.format(camera_id=...)`. -/
def API_HLS_PLAYLIST (camera_id : String) : String :=
  "/stream/hls/" ++ camera_id ++ "/index.m3u8"

/-- Python truthiness of an optional string: `None` and `""` are falsy,
every other string is truthy.  This is the test performed by
`if not challenge`, `if not self._session_token`, etc. -/
def pyTruthy : Option String → Bool
  | none => false
  | some s => !s.isEmpty

/-- A JSON response body, restricted to the fields the client reads.  A
field being `none` models the key being absent from the JSON object. -/
structure RespBody where
  error : Option String := none
  code : Option String := none
  challenge : Option String := none
  nonce : Option String := none
  session_token : Option String := none
  cameras : Option (List String) := none
  deriving DecidableEq, Repr

/-- One HTTP request as it is put on the wire by `aiohttp`: the method, the
endpoint path, the query parameters (empty for `_request`; used by the
stream-URL builders), the headers, the JSON body flattened to key/value
pairs, and the `ClientTimeout(total=...)` bound passed with the request. -/
structure WireRequest where
  method : String
  endpoint : String
  query : List (String × String)
  headers : List (String × String)
  body : List (String × String)
  timeoutTotal : Nat
  deriving DecidableEq, Repr

/-- Outcome of one transport call.  `clientError` models a raised
`aiohttp.ClientError`; `timeoutExpired` models `aiohttp` raising
`asyncio.TimeoutError` when the `ClientTimeout(total=30)` bound is
exceeded. -/
inductive HttpOutcome where
  | response (status : Nat) (body : RespBody)
  | clientError (msg : String)
  | timeoutExpired
  deriving DecidableEq, Repr

/-- Embedding of `PentaVisionAPIError(message, code)` from `api.py`. -/
structure ApiError where
  message : String
  code : Option String := none
  deriving DecidableEq, Repr

/-- An exception escaping `_request`: either a raised
`PentaVisionAPIError`, or the `asyncio.TimeoutError` that `aiohttp`
raises on expiry of the `ClientTimeout` — the handler
`except aiohttp.ClientError` at `api.py` line 166 does not catch
`asyncio.TimeoutError`, so the timeout leaves `_request` unwrapped. -/
inductive PyErr where
  | apiError (e : ApiError)
  | timeoutError
  deriving DecidableEq, Repr

/-- The remote server / transport oracle: outcome of the `n`-th transport
call, given the request placed on the wire. -/
def Server : Type := Nat → WireRequest → HttpOutcome

/-- The external hash primitives used by `authenticate`:
`hashlib.sha256(x).hexdigest()` and
`hmac.new(key, msg, sha256).hexdigest()`. -/
structure Crypto where
  sha256Hex : String → String
  hmacSha256Hex : String → String → String

/-- The mutable state of a `PentaVisionAPI` instance (`api.py`). -/
structure PentaVisionAPI where
  host : String
  port : Nat
  api_key : String
  session_token : Option String := none
  deriving DecidableEq, Repr

/-- Embedding of `self._base_url = f"http://{host}:{port}"`. -/
def PentaVisionAPI.base_url (api : PentaVisionAPI) : String :=
  "http://" ++ api.host ++ ":" ++ toString api.port

/-- The `authenticated` property: `self._session_token is not None`. -/
def PentaVisionAPI.authenticated (api : PentaVisionAPI) : Bool :=
  api.session_token.isSome

/-- Result of one client operation: its return value, the updated client
state, the next transport call index and the wire requests issued. -/
structure OpResult (α : Type) where
  value : α
  api : PentaVisionAPI
  calls : Nat
  trace : List WireRequest
  deriving Repr

/-- The wire request `_request` builds before calling the transport: the
header preparation of `api.py` lines 142-146 (`X-Session-Token` attached
when `auth` is set and a truthy token is held) plus the fixed
`ClientTimeout(total=30)` of line 154. -/
def requestWire (api : PentaVisionAPI) (method : String) (endpoint : String)
    (json : List (String × String)) (headers : List (String × String))
    (auth : Bool) : WireRequest :=
  { method := method, endpoint := endpoint, query := [],
    headers :=
      if auth && pyTruthy api.session_token then
        headers ++ [("X-Session-Token", api.session_token.getD "")]
      else headers,
    body := json, timeoutTotal := 30 }

/-- Embedding of `PentaVisionAPI._request` from `api.py` (lines 132-167): performs the
transport call for `requestWire`, raises
`PentaVisionAPIError(data.get("error", "Unknown error"), data.get("code"))`
on status >= 400, returns the body otherwise, and wraps a raised
`aiohttp.ClientError` in `PentaVisionAPIError(f"Connection error: {err}")`
with no code.  The `asyncio.TimeoutError` raised on timeout expiry is not
an `aiohttp.ClientError`, so the `except` clause of line 166 does not
catch it and it escapes `_request` unwrapped (`PyErr.timeoutError`). -/
def PentaVisionAPI._request (api : PentaVisionAPI) (srv : Server) (n : Nat)
    (method : String) (endpoint : String) (json : List (String × String))
    (headers : List (String × String)) (auth : Bool) :
    OpResult (Except PyErr RespBody) :=
  match srv n (requestWire api method endpoint json headers auth) with
  | .response status data =>
      if 400 ≤ status then
        { value := .error (.apiError
            { message := data.error.getD "Unknown error", code := data.code }),
          api := api, calls := n + 1,
          trace := [requestWire api method endpoint json headers auth] }
      else
        { value := .ok data, api := api, calls := n + 1,
          trace := [requestWire api method endpoint json headers auth] }
  | .clientError msg =>
      { value := .error (.apiError
          { message := "Connection error: " ++ msg, code := none }),
        api := api, calls := n + 1,
        trace := [requestWire api method endpoint json headers auth] }
  | .timeoutExpired =>
      { value := .error .timeoutError,
        api := api, calls := n + 1,
        trace := [requestWire api method endpoint json headers auth] }

/-- Embedding of `PentaVisionAPI.authenticate` from `api.py` (lines 59-117).  The
surrounding `try/except Exception: return False` means every raised
`PentaVisionAPIError` (and any transport fault) becomes `return False`,
with the state as it was at the point of the raise. -/
def PentaVisionAPI.authenticate (api : PentaVisionAPI) (crypto : Crypto)
    (srv : Server) (n : Nat) : OpResult Bool :=
  let r1 := api._request srv n "POST" API_HANDSHAKE_INIT
      [("api_key_hash", crypto.sha256Hex api.api_key)] [] false
  match r1.value with
  | .error _ => { value := false, api := api, calls := r1.calls, trace := r1.trace }
  | .ok init_response =>
    if init_response.error.isSome then
      { value := false, api := api, calls := r1.calls, trace := r1.trace }
    else
      let challenge := init_response.challenge
      let nonce := init_response.nonce
      if !pyTruthy challenge || !pyTruthy nonce then
        { value := false, api := api, calls := r1.calls, trace := r1.trace }
      else
        let response_hmac := crypto.hmacSha256Hex api.api_key (challenge.getD "")
        let r2 := api._request srv r1.calls "POST" API_HANDSHAKE_COMPLETE
            [("nonce", nonce.getD ""), ("response", response_hmac),
             ("client_info.type", "home_assistant"),
             ("client_info.version", "1.0.0")]
            [("X-API-Key", api.api_key)] false
        match r2.value with
        | .error _ =>
            { value := false, api := api, calls := r2.calls,
              trace := r1.trace ++ r2.trace }
        | .ok complete_response =>
          if complete_response.error.isSome then
            { value := false, api := api, calls := r2.calls,
              trace := r1.trace ++ r2.trace }
          else
            let api1 := { api with session_token := complete_response.session_token }
            if !pyTruthy api1.session_token then
              { value := false, api := api1, calls := r2.calls,
                trace := r1.trace ++ r2.trace }
            else
              { value := true, api := api1, calls := r2.calls,
                trace := r1.trace ++ r2.trace }

/-- Embedding of `PentaVisionAPI.revoke_session` from `api.py` (lines 119-130): no-op
returning `True` when no truthy token is held; otherwise performs the
revoke request, and only on its success clears the token and returns
`True`; on a raised error returns `False` with the state as it was at the
raise (the clearing assignment is not reached). -/
def PentaVisionAPI.revoke_session (api : PentaVisionAPI) (srv : Server)
    (n : Nat) : OpResult Bool :=
  if !pyTruthy api.session_token then
    { value := true, api := api, calls := n, trace := [] }
  else
    let r := api._request srv n "POST" API_SESSION_REVOKE [] [] true
    match r.value with
    | .ok _ =>
        { value := true, api := { api with session_token := none },
          calls := r.calls, trace := r.trace }
    | .error _ =>
        { value := false, api := api, calls := r.calls, trace := r.trace }

/-- Embedding of `PentaVisionAPI.get_status`: `self._request("GET", API_STATUS)`. -/
def PentaVisionAPI.get_status (api : PentaVisionAPI) (srv : Server) (n : Nat) :
    OpResult (Except PyErr RespBody) :=
  api._request srv n "GET" API_STATUS [] [] true

/-- Embedding of `PentaVisionAPI.get_cameras`: `self._request("GET", API_CAMERAS)` then
`response.get("cameras", [])`. -/
def PentaVisionAPI.get_cameras (api : PentaVisionAPI) (srv : Server) (n : Nat) :
    OpResult (Except PyErr (List String)) :=
  let r := api._request srv n "GET" API_CAMERAS [] [] true
  match r.value with
  | .ok resp =>
      { value := .ok (resp.cameras.getD []), api := r.api, calls := r.calls,
        trace := r.trace }
  | .error e =>
      { value := .error e, api := r.api, calls := r.calls, trace := r.trace }

/-- A stream URL as built by `get_mjpeg_url` / `get_hls_url`: the f-string
`f"{base_url}{endpoint}?k={v}"` kept with its components separated, so the
query parameter it carries stays inspectable. -/
structure StreamUrl where
  base : String
  endpoint : String
  query : List (String × String)
  deriving DecidableEq, Repr

/-- The string the f-strings in `get_mjpeg_url` / `get_hls_url` produce. -/
def StreamUrl.render (u : StreamUrl) : String :=
  u.base ++ u.endpoint ++
    (u.query.foldl (fun acc p => acc ++ "?" ++ p.1 ++ "=" ++ p.2) "")

/-- Embedding of `PentaVisionAPI.get_mjpeg_url` from `api.py` (lines 201-206): with a
truthy session token the URL carries `?session_token=...`; otherwise it
falls back to `?api_key={self.api_key}` with the raw key. -/
def PentaVisionAPI.get_mjpeg_url (api : PentaVisionAPI) (camera_id : String) :
    StreamUrl :=
  let endpoint := API_MJPEG_STREAM camera_id
  if pyTruthy api.session_token then
    { base := api.base_url, endpoint := endpoint,
      query := [("session_token", api.session_token.getD "")] }
  else
    { base := api.base_url, endpoint := endpoint,
      query := [("api_key", api.api_key)] }

/-- Embedding of `PentaVisionAPI.get_hls_url` from `api.py` (lines 208-213), same
token-or-raw-key fallback as `get_mjpeg_url`. -/
def PentaVisionAPI.get_hls_url (api : PentaVisionAPI) (camera_id : String) :
    StreamUrl :=
  let endpoint := API_HLS_PLAYLIST camera_id
  if pyTruthy api.session_token then
    { base := api.base_url, endpoint := endpoint,
      query := [("session_token", api.session_token.getD "")] }
  else
    { base := api.base_url, endpoint := endpoint,
      query := [("api_key", api.api_key)] }

/-- State of `PentaVisionCoordinator`: the shared API client and the
`self.cameras` attribute. -/
structure CoordState where
  api : PentaVisionAPI
  cameras : List String
  deriving DecidableEq, Repr

/-- The composite dictionary a successful `_async_update_data` returns. -/
structure CoordData where
  status : RespBody
  cameras : List String
  camera_count : Nat
  server_online : Bool
  deriving DecidableEq, Repr

/-- Result of one refresh cycle: success with the composite data, a raised
`UpdateFailed`, or exhaustion of the recursion fuel (the Python code has no
recursion bound; `outOfFuel` marks a run that was still recursing when the
allotted depth ran out). -/
inductive RefreshOutcome where
  | success (data : CoordData)
  | updateFailed (msg : String)
  | outOfFuel
  deriving DecidableEq, Repr

/-- Result record for `updateData`. -/
structure UpdateResult where
  outcome : RefreshOutcome
  st : CoordState
  calls : Nat
  trace : List WireRequest
  deriving Repr

/-- Embedding of `PentaVisionCoordinator._async_update_data` from `coordinator.py`
(lines 33-60), with an explicit recursion-depth fuel.  On a
`PentaVisionAPIError` whose code is `SESSION_INVALID` it calls
`authenticate()`; if that returns true it recursively re-enters the whole
cycle (consuming one unit of fuel), otherwise — and for every other
`PentaVisionAPIError` — it raises
`UpdateFailed(f"Error communicating with PentaVision: {err}")`.  An
`asyncio.TimeoutError` escaping `_request` unwrapped is caught by the
generic `except Exception` clause (lines 59-60) and raised as
`UpdateFailed(f"Unexpected error: {err}")`; the embedded message stands
for that f-string. -/
def updateData (crypto : Crypto) (srv : Server) :
    Nat → Nat → CoordState → UpdateResult
  | 0, _n, st => { outcome := .outOfFuel, st := st, calls := _n, trace := [] }
  | fuel + 1, n, st =>
    let rs := st.api.get_status srv n
    match rs.value with
    | .ok status =>
      let rc := st.api.get_cameras srv rs.calls
      match rc.value with
      | .ok cams =>
        let st1 := { st with cameras := cams }
        let data : CoordData :=
          { status := status, cameras := st1.cameras,
            camera_count := st1.cameras.length, server_online := true }
        { outcome := .success data, st := st1, calls := rc.calls,
          trace := rs.trace ++ rc.trace }
      | .error (.apiError err) =>
        if err.code == some "SESSION_INVALID" then
          let ra := st.api.authenticate crypto srv rc.calls
          if ra.value then
            let r1 := updateData crypto srv fuel ra.calls { st with api := ra.api }
            { outcome := r1.outcome, st := r1.st, calls := r1.calls,
              trace := rs.trace ++ rc.trace ++ ra.trace ++ r1.trace }
          else
            { outcome := .updateFailed
                ("Error communicating with PentaVision: " ++ err.message),
              st := { st with api := ra.api }, calls := ra.calls,
              trace := rs.trace ++ rc.trace ++ ra.trace }
        else
          { outcome := .updateFailed
              ("Error communicating with PentaVision: " ++ err.message),
            st := st, calls := rc.calls, trace := rs.trace ++ rc.trace }
      | .error .timeoutError =>
        { outcome := .updateFailed "Unexpected error: timeout",
          st := st, calls := rc.calls, trace := rs.trace ++ rc.trace }
    | .error (.apiError err) =>
      if err.code == some "SESSION_INVALID" then
        let ra := st.api.authenticate crypto srv rs.calls
        if ra.value then
          let r1 := updateData crypto srv fuel ra.calls { st with api := ra.api }
          { outcome := r1.outcome, st := r1.st, calls := r1.calls,
            trace := rs.trace ++ ra.trace ++ r1.trace }
        else
          { outcome := .updateFailed
              ("Error communicating with PentaVision: " ++ err.message),
            st := { st with api := ra.api }, calls := ra.calls,
            trace := rs.trace ++ ra.trace }
      else
        { outcome := .updateFailed
            ("Error communicating with PentaVision: " ++ err.message),
          st := st, calls := rs.calls, trace := rs.trace }
    | .error .timeoutError =>
      { outcome := .updateFailed "Unexpected error: timeout",
        st := st, calls := rs.calls, trace := rs.trace }

/-- Number of requests in a trace addressed to a given endpoint. -/
def countEndpoint (e : String) (t : List WireRequest) : Nat :=
  (t.filter (fun r => r.endpoint == e)).length

/-- Number of fetch attempts (status or cameras requests) in a trace. -/
def fetchCount (t : List WireRequest) : Nat :=
  countEndpoint API_STATUS t + countEndpoint API_CAMERAS t

/-- Number of `authenticate()` invocations visible in a trace: every
invocation issues exactly one handshake-init request (and it is issued by
nothing else). -/
def authCallCount (t : List WireRequest) : Nat :=
  countEndpoint API_HANDSHAKE_INIT t

/-- Whether a wire request carries the value `k` in its body, its query,
or a header other than the `X-API-Key` header of the handshake-complete
request (the one place the raw API key is allowed). -/
def WireRequest.exposesVal (r : WireRequest) (k : String) : Bool :=
  r.body.any (fun p => p.2 == k) || r.query.any (fun p => p.2 == k) ||
  r.headers.any (fun p =>
    p.2 == k && !(p.1 == "X-API-Key" && r.endpoint == API_HANDSHAKE_COMPLETE))

/-- Whether a stream URL carries the value `k` as a query parameter. -/
def StreamUrl.exposesVal (u : StreamUrl) (k : String) : Bool :=
  u.query.any (fun p => p.2 == k)

/-- Concrete hash parameters for test scenarios (constant digests). -/
def crypto0 : Crypto := { sha256Hex := fun _ => "S", hmacSha256Hex := fun _ _ => "H" }

/-- A client currently holding session token `"tok"`. -/
def apiTok : PentaVisionAPI :=
  { host := "h", port := 1, api_key := "secret", session_token := some "tok" }

/-- A client holding no session token. -/
def apiNoTok : PentaVisionAPI :=
  { host := "h", port := 1, api_key := "secret", session_token := none }

/-- A server for which every transport call fails with a client error. -/
def srvDown : Server := fun _ _ => .clientError "boom"

/-- A server that answers every call with HTTP 200 and a body accepting
both handshake steps (truthy challenge, nonce and session token). -/
def srvOK : Server := fun _ _ =>
  .response 200 { challenge := some "c", nonce := some "v", session_token := some "tok" }

/-- The mock server of the C1 scenario: every fetch (status or cameras
request) is answered with HTTP 401 and code `SESSION_INVALID`, while both
handshake steps always succeed (re-authentication always works). -/
def srvC1 : Server := fun _ r =>
  if r.endpoint == API_HANDSHAKE_INIT then
    .response 200 { challenge := some "c", nonce := some "v" }
  else if r.endpoint == API_HANDSHAKE_COMPLETE then
    .response 200 { session_token := some "tok" }
  else
    .response 401 { error := some "Invalid session", code := some "SESSION_INVALID" }

/-- The mock server of the C3 scenario, keyed by call index: the first
status fetch returns `s1`, the first cameras fetch fails with
`SESSION_INVALID`, the handshake then succeeds, and the retried status and
cameras fetches return `s2` and `cams`. -/
def srvC3 (s1 s2 : RespBody) (cams : List String) : Server := fun n _ =>
  match n with
  | 0 => .response 200 s1
  | 1 => .response 401 { error := some "Invalid session", code := some "SESSION_INVALID" }
  | 2 => .response 200 { challenge := some "c", nonce := some "v" }
  | 3 => .response 200 { session_token := some "tok" }
  | 4 => .response 200 s2
  | 5 => .response 200 { cameras := some cams }
  | _ => .clientError "no further calls"

/-- A server answering every call with HTTP 200 and an empty JSON body
(no challenge, no nonce, no session token). -/
def srvEmpty : Server := fun _ _ => .response 200 {}

/-- A server that accepts handshake-init on its first call but answers the
next call with a body holding no session token. -/
def srvNoToken : Server := fun n _ =>
  match n with
  | 0 => .response 200 { challenge := some "c", nonce := some "v" }
  | _ => .response 200 {}

/-- A server that accepts handshake-init on its first call but answers the
next call with an empty-string session token. -/
def srvEmptyToken : Server := fun n _ =>
  match n with
  | 0 => .response 200 { challenge := some "c", nonce := some "v" }
  | _ => .response 200 { session_token := some "" }

/-- A server that accepts handshake-init on its first call but fails every
later call at transport level. -/
def srvHalfDown : Server := fun n _ =>
  match n with
  | 0 => .response 200 { challenge := some "c", nonce := some "v" }
  | _ => .clientError "boom"

/-- A server for which every call exceeds the request timeout. -/
def srvSlow : Server := fun _ _ => .timeoutExpired

/-- A server answering every call with HTTP 500 and an error body. -/
def srvErr : Server := fun _ _ =>
  .response 500 { error := some "E", code := some "C" }

theorem countEndpoint_append (e : String) (t1 t2 : List WireRequest) :
    countEndpoint e (t1 ++ t2) = countEndpoint e t1 + countEndpoint e t2 := by
  simp [countEndpoint, List.filter_append]

theorem get_status_srvC1 (api : PentaVisionAPI) (n : Nat) :
    api.get_status srvC1 n =
      { value := .error (.apiError
          { message := "Invalid session", code := some "SESSION_INVALID" }),
        api := api, calls := n + 1,
        trace := [requestWire api "GET" API_STATUS [] [] true] } := by
  simp [PentaVisionAPI.get_status, PentaVisionAPI._request, srvC1, requestWire,
    API_STATUS, API_HANDSHAKE_INIT, API_HANDSHAKE_COMPLETE]

theorem authenticate_srvC1 (api : PentaVisionAPI) (crypto : Crypto) (n : Nat) :
    api.authenticate crypto srvC1 n =
      { value := true, api := { api with session_token := some "tok" },
        calls := n + 2,
        trace := [requestWire api "POST" API_HANDSHAKE_INIT
            [("api_key_hash", crypto.sha256Hex api.api_key)] [] false,
          requestWire api "POST" API_HANDSHAKE_COMPLETE
            [("nonce", "v"), ("response", crypto.hmacSha256Hex api.api_key "c"),
             ("client_info.type", "home_assistant"), ("client_info.version", "1.0.0")]
            [("X-API-Key", api.api_key)] false] } := by
  simp [PentaVisionAPI.authenticate, PentaVisionAPI._request, srvC1, requestWire,
    API_STATUS, API_HANDSHAKE_INIT, API_HANDSHAKE_COMPLETE, pyTruthy,
    show "c".isEmpty = false from rfl, show "v".isEmpty = false from rfl,
    show "tok".isEmpty = false from rfl]

/-- C1 (the code at the failing input): against a server that answers every
fetch with an `ApiError` carrying code `SESSION_INVALID` while every
re-authentication succeeds, the refresh cycle never terminates — for every
recursion-depth bound `fuel`, the run ends in `outOfFuel` (never in a
failure result), having made `fuel` fetch attempts and `fuel`
`authenticate()` calls, contradicting the claimed bound of at most two
fetch attempts and one `authenticate()` call followed by failure. -/
theorem c1_persistent_session_invalid_never_terminates (crypto : Crypto)
    (fuel : Nat) : ∀ (n : Nat) (st : CoordState),
    (updateData crypto srvC1 fuel n st).outcome = .outOfFuel ∧
    authCallCount (updateData crypto srvC1 fuel n st).trace = fuel ∧
    fetchCount (updateData crypto srvC1 fuel n st).trace = fuel := by
  induction fuel with
  | zero =>
    intro n st
    simp [updateData, authCallCount, fetchCount, countEndpoint]
  | succ fuel ih =>
    intro n st
    simp only [authCallCount, fetchCount, countEndpoint, API_STATUS, API_CAMERAS,
      API_HANDSHAKE_INIT, API_HANDSHAKE_COMPLETE] at ih ⊢
    simp [updateData, get_status_srvC1, authenticate_srvC1, countEndpoint_append,
      countEndpoint, requestWire, API_STATUS, API_CAMERAS, API_HANDSHAKE_INIT,
      API_HANDSHAKE_COMPLETE, ih]
    obtain ⟨h1, h2, h3⟩ :=
      ih (n + 1 + 2) ⟨⟨st.api.host, st.api.port, st.api.api_key, some "tok"⟩, st.cameras⟩
    omega

/-- C3: when the first `get_cameras` fetch of a refresh cycle fails with
code `SESSION_INVALID`, `authenticate()` succeeds, and the retried fetches
succeed, the refresh cycle succeeds with the composite
`{status, cameras, camera_count = cameras.length, server_online = true}`
built from the retried responses, with exactly one `authenticate()` call
(and four fetch requests) in total; the coordinator's `cameras` attribute
ends up holding the fetched list. -/
theorem c3_reauth_retry_success (crypto : Crypto) (s1 s2 : RespBody)
    (cams : List String) (fuel : Nat) (st : CoordState) :
    (updateData crypto (srvC3 s1 s2 cams) (fuel + 2) 0 st).outcome =
      .success { status := s2, cameras := cams, camera_count := cams.length,
                 server_online := true } ∧
    authCallCount (updateData crypto (srvC3 s1 s2 cams) (fuel + 2) 0 st).trace = 1 ∧
    fetchCount (updateData crypto (srvC3 s1 s2 cams) (fuel + 2) 0 st).trace = 4 ∧
    (updateData crypto (srvC3 s1 s2 cams) (fuel + 2) 0 st).st.cameras = cams := by
  refine ⟨?_, ?_, ?_, ?_⟩ <;>
    simp [updateData, PentaVisionAPI.get_status, PentaVisionAPI.get_cameras,
      PentaVisionAPI.authenticate, PentaVisionAPI._request, requestWire, srvC3,
      pyTruthy, authCallCount, fetchCount, countEndpoint, API_STATUS, API_CAMERAS,
      API_HANDSHAKE_INIT, API_HANDSHAKE_COMPLETE,
      show "c".isEmpty = false from rfl, show "v".isEmpty = false from rfl,
      show "tok".isEmpty = false from rfl]

theorem request_api_eq (api : PentaVisionAPI) (srv : Server) (n : Nat)
    (method endpoint : String) (json headers : List (String × String))
    (auth : Bool) :
    (api._request srv n method endpoint json headers auth).api = api := by
  unfold PentaVisionAPI._request
  cases srv n (requestWire api method endpoint json headers auth) with
  | response status data => by_cases h4 : 400 ≤ status <;> simp [h4]
  | clientError msg => rfl
  | timeoutExpired => rfl

theorem get_cameras_api_eq (api : PentaVisionAPI) (srv : Server) (n : Nat) :
    (api.get_cameras srv n).api = api := by
  unfold PentaVisionAPI.get_cameras
  cases h : (api._request srv n "GET" API_CAMERAS [] [] true).value with
  | ok resp => simp only [h]; exact request_api_eq ..
  | error e => simp only [h]; exact request_api_eq ..

/-- C9: the authenticated-request primitive never modifies the
session-token state: after any `_request` call — and in particular after
`get_status` and `get_cameras` — whether it returns a body, raises an
`ApiError` from a status >= 400, or fails at transport level, the stored
session token (indeed the whole client state) equals what it was before
the call. -/
theorem c9_request_never_modifies_token (api : PentaVisionAPI) (srv : Server)
    (n : Nat) (method endpoint : String) (json headers : List (String × String))
    (auth : Bool) :
    (api._request srv n method endpoint json headers auth).api = api ∧
    (api.get_status srv n).api = api ∧
    (api.get_cameras srv n).api = api := by
  exact ⟨request_api_eq .., request_api_eq .., get_cameras_api_eq ..⟩

/-- C2 counterexample: a client holding token `"tok"` whose revoke request
fails at transport level: `revoke_session` returns `false` and the local
token is still `"tok"` — it was not cleared, contradicting the claim that
clearing is unconditional. -/
theorem c2_revoke_counterexample :
    (apiTok.revoke_session srvDown 0).value = false ∧
    (apiTok.revoke_session srvDown 0).api.session_token = some "tok" := by
  exact ⟨rfl, rfl⟩

theorem request_resp_ok (api : PentaVisionAPI) (srv : Server) (n : Nat)
    (method endpoint : String) (json headers : List (String × String))
    (auth : Bool) (s : Nat) (b : RespBody)
    (h : ∀ r, srv n r = .response s b) (hs : s < 400) :
    api._request srv n method endpoint json headers auth =
      { value := .ok b, api := api, calls := n + 1,
        trace := [requestWire api method endpoint json headers auth] } := by
  unfold PentaVisionAPI._request
  rw [h]
  simp [show ¬ (400 ≤ s) by omega]

theorem request_resp_err (api : PentaVisionAPI) (srv : Server) (n : Nat)
    (method endpoint : String) (json headers : List (String × String))
    (auth : Bool) (s : Nat) (b : RespBody)
    (h : ∀ r, srv n r = .response s b) (hs : 400 ≤ s) :
    api._request srv n method endpoint json headers auth =
      { value := .error (.apiError
          { message := b.error.getD "Unknown error", code := b.code }),
        api := api, calls := n + 1,
        trace := [requestWire api method endpoint json headers auth] } := by
  unfold PentaVisionAPI._request
  rw [h]
  simp [hs]

theorem request_client_error (api : PentaVisionAPI) (srv : Server) (n : Nat)
    (method endpoint : String) (json headers : List (String × String))
    (auth : Bool) (msg : String)
    (h : ∀ r, srv n r = .clientError msg) :
    api._request srv n method endpoint json headers auth =
      { value := .error (.apiError
          { message := "Connection error: " ++ msg, code := none }),
        api := api, calls := n + 1,
        trace := [requestWire api method endpoint json headers auth] } := by
  unfold PentaVisionAPI._request
  rw [h]

theorem request_timeout (api : PentaVisionAPI) (srv : Server) (n : Nat)
    (method endpoint : String) (json headers : List (String × String))
    (auth : Bool)
    (h : ∀ r, srv n r = .timeoutExpired) :
    api._request srv n method endpoint json headers auth =
      { value := .error .timeoutError,
        api := api, calls := n + 1,
        trace := [requestWire api method endpoint json headers auth] } := by
  unfold PentaVisionAPI._request
  rw [h]

theorem request_trace_eq (api : PentaVisionAPI) (srv : Server) (n : Nat)
    (method endpoint : String) (json headers : List (String × String))
    (auth : Bool) :
    (api._request srv n method endpoint json headers auth).trace =
      [requestWire api method endpoint json headers auth] := by
  unfold PentaVisionAPI._request
  cases srv n (requestWire api method endpoint json headers auth) with
  | response status data => by_cases h4 : 400 ≤ status <;> simp [h4]
  | clientError msg => rfl
  | timeoutExpired => rfl

/-- C4: `authenticate()` returns `false` when the handshake-init response
lacks (or has empty) `challenge` or `nonce`, leaving the client state
unchanged (in particular, Unauthenticated stays Unauthenticated); and it
returns `false` when the handshake-complete response carries no truthy
session token, even though the init step succeeded. -/
theorem c4_authenticate_missing_fields (crypto : Crypto) (srv1 srv2 : Server)
    (n : Nat) (api : PentaVisionAPI) (b1 bi b2 : RespBody)
    (h1 : ∀ r, srv1 n r = .response 200 b1)
    (hcn : pyTruthy b1.challenge = false ∨ pyTruthy b1.nonce = false)
    (g1 : ∀ r, srv2 n r = .response 200 bi)
    (gerr : bi.error = none)
    (gch : pyTruthy bi.challenge = true)
    (gn : pyTruthy bi.nonce = true)
    (g2 : ∀ r, srv2 (n + 1) r = .response 200 b2)
    (g2err : b2.error = none)
    (g2tok : pyTruthy b2.session_token = false) :
    ((api.authenticate crypto srv1 n).value = false ∧
      (api.authenticate crypto srv1 n).api = api) ∧
    (api.authenticate crypto srv2 n).value = false := by
  constructor
  · unfold PentaVisionAPI.authenticate
    rw [request_resp_ok api srv1 n _ _ _ _ _ _ _ h1 (by omega)]
    rcases hcn with hc | hc <;>
      cases he : b1.error.isSome <;> simp_all
  · unfold PentaVisionAPI.authenticate
    rw [request_resp_ok api srv2 n _ _ _ _ _ _ _ g1 (by omega)]
    simp only [gerr, gch, gn]
    rw [request_resp_ok api srv2 (n + 1) _ _ _ _ _ _ _ g2 (by omega)]
    simp [g2err, g2tok]

theorem c4_authenticate_missing_fields_witness :
    ((apiNoTok.authenticate crypto0 srvEmpty 0).value = false ∧
      (apiNoTok.authenticate crypto0 srvEmpty 0).api = apiNoTok) ∧
    (apiNoTok.authenticate crypto0 srvNoToken 0).value = false := by
  exact c4_authenticate_missing_fields crypto0 srvEmpty srvNoToken 0 apiNoTok
    {} { challenge := some "c", nonce := some "v" } {}
    (fun _ => rfl) (Or.inl rfl) (fun _ => rfl) rfl rfl rfl (fun _ => rfl) rfl rfl

/-- C5: a transport-level failure (client error or timeout expiry) during
either handshake step is caught by `authenticate()`, which returns `false`
with the client state unchanged; `authenticate` is a total function into
`Bool`, so no error ever propagates to its caller. -/
theorem c5_authenticate_catches_transport_faults (crypto : Crypto)
    (srv1 srv2 : Server) (n : Nat) (api : PentaVisionAPI) (bi : RespBody)
    (m1 m2 : String)
    (h1 : (∀ r, srv1 n r = .clientError m1) ∨ (∀ r, srv1 n r = .timeoutExpired))
    (g1 : ∀ r, srv2 n r = .response 200 bi)
    (gerr : bi.error = none)
    (gch : pyTruthy bi.challenge = true)
    (gn : pyTruthy bi.nonce = true)
    (g2 : (∀ r, srv2 (n + 1) r = .clientError m2) ∨
      (∀ r, srv2 (n + 1) r = .timeoutExpired)) :
    ((api.authenticate crypto srv1 n).value = false ∧
      (api.authenticate crypto srv1 n).api = api) ∧
    ((api.authenticate crypto srv2 n).value = false ∧
      (api.authenticate crypto srv2 n).api = api) := by
  constructor
  · unfold PentaVisionAPI.authenticate
    rcases h1 with h | h
    · rw [request_client_error api srv1 n _ _ _ _ _ _ h]; exact ⟨rfl, rfl⟩
    · rw [request_timeout api srv1 n _ _ _ _ _ h]; exact ⟨rfl, rfl⟩
  · unfold PentaVisionAPI.authenticate
    rw [request_resp_ok api srv2 n _ _ _ _ _ _ _ g1 (by omega)]
    simp only [gerr, gch, gn]
    rcases g2 with h | h
    · rw [request_client_error api srv2 (n + 1) _ _ _ _ _ _ h]; simp
    · rw [request_timeout api srv2 (n + 1) _ _ _ _ _ h]; simp

theorem c5_authenticate_catches_transport_faults_witness :
    ((apiNoTok.authenticate crypto0 srvDown 0).value = false ∧
      (apiNoTok.authenticate crypto0 srvDown 0).api = apiNoTok) ∧
    ((apiNoTok.authenticate crypto0 srvHalfDown 0).value = false ∧
      (apiNoTok.authenticate crypto0 srvHalfDown 0).api = apiNoTok) := by
  exact c5_authenticate_catches_transport_faults crypto0 srvDown srvHalfDown 0
    apiNoTok { challenge := some "c", nonce := some "v" } "boom" "boom"
    (Or.inl fun _ => rfl) (fun _ => rfl) rfl rfl rfl (Or.inl fun _ => rfl)

/-- C6 (the code at the failing input): the status >= 400 and
connection-failure clauses of the claim hold — an HTTP 500 with body
`{error: "E", code: "C"}` raises `PentaVisionAPIError("E", "C")` and a
client error raises a code-less `PentaVisionAPIError` — and every wire
request carries the fixed timeout bound 30; but when the request exceeds
that bound the `asyncio.TimeoutError` escapes `_request` as an unwrapped
exception, not as any `ApiError`, refuting the clause "not an unwrapped
exception". -/
theorem c6_timeout_escapes_unwrapped :
    (apiTok._request srvErr 0 "GET" API_STATUS [] [] true).value =
      .error (.apiError { message := "E", code := some "C" }) ∧
    (apiTok._request srvDown 0 "GET" API_STATUS [] [] true).value =
      .error (.apiError { message := "Connection error: boom", code := none }) ∧
    (apiTok._request srvSlow 0 "GET" API_STATUS [] [] true).trace.all
      (fun r => r.timeoutTotal == 30) = true ∧
    (apiTok._request srvSlow 0 "GET" API_STATUS [] [] true).value =
      .error .timeoutError ∧
    (∀ e : ApiError,
      (apiTok._request srvSlow 0 "GET" API_STATUS [] [] true).value ≠
        .error (.apiError e)) := by
  refine ⟨rfl, rfl, rfl, rfl, ?_⟩
  intro e h
  rw [request_timeout apiTok srvSlow 0 "GET" API_STATUS [] [] true
    (fun _ => rfl)] at h
  simp at h

/-- C10: when the handshake-complete response's `session_token` is absent
or the empty string, `authenticate()` returns `false` but has already
overwritten the stored session token with that value before the validity
check — a token held before the call is not preserved — and when the new
value is the empty string the `authenticated` property reports `true` even
though `authenticate()` returned `false`. -/
theorem c10_token_overwritten_on_failure (crypto : Crypto) (srv : Server)
    (n : Nat) (api : PentaVisionAPI) (bi b2 : RespBody)
    (g1 : ∀ r, srv n r = .response 200 bi)
    (gerr : bi.error = none)
    (gch : pyTruthy bi.challenge = true)
    (gn : pyTruthy bi.nonce = true)
    (g2 : ∀ r, srv (n + 1) r = .response 200 b2)
    (g2err : b2.error = none)
    (g2tok : pyTruthy b2.session_token = false) :
    (api.authenticate crypto srv n).value = false ∧
    (api.authenticate crypto srv n).api.session_token = b2.session_token ∧
    (b2.session_token = some "" →
      (api.authenticate crypto srv n).api.authenticated = true) := by
  unfold PentaVisionAPI.authenticate
  rw [request_resp_ok api srv n _ _ _ _ _ _ _ g1 (by omega)]
  simp only [gerr, gch, gn]
  rw [request_resp_ok api srv (n + 1) _ _ _ _ _ _ _ g2 (by omega)]
  simp [g2err, g2tok, PentaVisionAPI.authenticated]
  intro h
  simp [h]

theorem c10_token_overwritten_on_failure_witness :
    (apiTok.authenticate crypto0 srvEmptyToken 0).value = false ∧
    (apiTok.authenticate crypto0 srvEmptyToken 0).api.session_token = some "" ∧
    (apiTok.authenticate crypto0 srvEmptyToken 0).api.authenticated = true := by
  have h := c10_token_overwritten_on_failure crypto0 srvEmptyToken 0 apiTok
    { challenge := some "c", nonce := some "v" } { session_token := some "" }
    (fun _ => rfl) rfl rfl rfl (fun _ => rfl) rfl rfl
  exact ⟨h.1, h.2.1, h.2.2 rfl⟩

/-- C2 amended: `revoke_session` is a no-op returning `true` when no
truthy token is held; when a token is held it clears the local token and
returns `true` only if the revoke request succeeds; when the request
raises (HTTP error status or transport failure) it returns `false` and
the local token is retained. -/
theorem c2_revoke_clears_only_on_success (srv : Server) (n : Nat)
    (api : PentaVisionAPI) (s : Nat) (b : RespBody) (msg : String) :
    (pyTruthy api.session_token = false →
      api.revoke_session srv n =
        { value := true, api := api, calls := n, trace := [] }) ∧
    (pyTruthy api.session_token = true → s < 400 →
      (∀ r, srv n r = .response s b) →
      (api.revoke_session srv n).value = true ∧
      (api.revoke_session srv n).api.session_token = none) ∧
    (pyTruthy api.session_token = true → 400 ≤ s →
      (∀ r, srv n r = .response s b) →
      (api.revoke_session srv n).value = false ∧
      (api.revoke_session srv n).api = api) ∧
    (pyTruthy api.session_token = true → (∀ r, srv n r = .clientError msg) →
      (api.revoke_session srv n).value = false ∧
      (api.revoke_session srv n).api = api) := by
  refine ⟨?_, ?_, ?_, ?_⟩
  · intro h
    unfold PentaVisionAPI.revoke_session
    simp [h]
  · intro h hs hr
    unfold PentaVisionAPI.revoke_session
    rw [request_resp_ok api srv n "POST" API_SESSION_REVOKE [] [] true s b hr hs]
    simp [h]
  · intro h hs hr
    unfold PentaVisionAPI.revoke_session
    rw [request_resp_err api srv n "POST" API_SESSION_REVOKE [] [] true s b hr hs]
    simp [h]
  · intro h hr
    unfold PentaVisionAPI.revoke_session
    rw [request_client_error api srv n "POST" API_SESSION_REVOKE [] [] true msg hr]
    simp [h]

theorem c2_revoke_clears_only_on_success_witness :
    (apiNoTok.revoke_session srvDown 0 =
      { value := true, api := apiNoTok, calls := 0, trace := [] }) ∧
    ((apiTok.revoke_session srvOK 0).value = true ∧
      (apiTok.revoke_session srvOK 0).api.session_token = none) ∧
    ((apiTok.revoke_session srvDown 0).value = false ∧
      (apiTok.revoke_session srvDown 0).api = apiTok) := by
  refine ⟨?_, ?_, ?_⟩
  · exact (c2_revoke_clears_only_on_success srvDown 0 apiNoTok 200 {} "boom").1 rfl
  · exact (c2_revoke_clears_only_on_success srvOK 0 apiTok 200
      { challenge := some "c", nonce := some "v", session_token := some "tok" }
      "boom").2.1 rfl (by omega) (fun _ => rfl)
  · exact (c2_revoke_clears_only_on_success srvDown 0 apiTok 200 {}
      "boom").2.2.2 rfl (fun _ => rfl)

theorem authenticate_true_token (crypto : Crypto) (srv : Server) (n : Nat)
    (api : PentaVisionAPI)
    (h : (api.authenticate crypto srv n).value = true) :
    pyTruthy (api.authenticate crypto srv n).api.session_token = true := by
  revert h
  simp only [PentaVisionAPI.authenticate]
  repeat' split
  all_goals simp_all

theorem get_cameras_trace_eq (api : PentaVisionAPI) (srv : Server) (n : Nat) :
    (api.get_cameras srv n).trace =
      (api._request srv n "GET" API_CAMERAS [] [] true).trace := by
  unfold PentaVisionAPI.get_cameras
  cases h : (api._request srv n "GET" API_CAMERAS [] [] true).value with
  | ok resp => simp only [h]
  | error e => simp only [h]

/-- C7: after a successful `authenticate()` that stored token `t`, the
token is a nonempty string and every subsequent authenticated request —
in particular every `get_status` and `get_cameras` request — carries the
header `X-Session-Token` with exactly the value `t`. -/
theorem c7_session_token_header (crypto : Crypto) (srv : Server) (n : Nat)
    (api : PentaVisionAPI) (t : String)
    (hauth : (api.authenticate crypto srv n).value = true)
    (htok : (api.authenticate crypto srv n).api.session_token = some t) :
    t ≠ "" ∧
    (∀ (srv2 : Server) (n2 : Nat),
      ∀ r ∈ ((api.authenticate crypto srv n).api.get_status srv2 n2).trace,
        ("X-Session-Token", t) ∈ r.headers) ∧
    (∀ (srv2 : Server) (n2 : Nat),
      ∀ r ∈ ((api.authenticate crypto srv n).api.get_cameras srv2 n2).trace,
        ("X-Session-Token", t) ∈ r.headers) := by
  have hp := authenticate_true_token crypto srv n api hauth
  rw [htok] at hp
  have ht : t ≠ "" := by
    intro he
    subst he
    simp [pyTruthy] at hp
    exact absurd hp (by decide)
  refine ⟨ht, ?_, ?_⟩
  · intro srv2 n2 r hr
    simp only [PentaVisionAPI.get_status] at hr
    rw [request_trace_eq] at hr
    simp only [List.mem_singleton] at hr
    subst hr
    simp [requestWire, htok, hp]
  · intro srv2 n2 r hr
    rw [get_cameras_trace_eq, request_trace_eq] at hr
    simp only [List.mem_singleton] at hr
    subst hr
    simp [requestWire, htok, hp]

theorem c7_session_token_header_witness :
    "tok" ≠ "" ∧
    (∀ (srv2 : Server) (n2 : Nat),
      ∀ r ∈ ((apiNoTok.authenticate crypto0 srvOK 0).api.get_status srv2 n2).trace,
        ("X-Session-Token", "tok") ∈ r.headers) ∧
    (∀ (srv2 : Server) (n2 : Nat),
      ∀ r ∈ ((apiNoTok.authenticate crypto0 srvOK 0).api.get_cameras srv2 n2).trace,
        ("X-Session-Token", "tok") ∈ r.headers) := by
  exact c7_session_token_header crypto0 srvOK 0 apiNoTok "tok" rfl rfl

theorem request_ok_inv (api : PentaVisionAPI) (srv : Server) (n : Nat)
    (method endpoint : String) (json headers : List (String × String))
    (auth : Bool) (d : RespBody)
    (h : (api._request srv n method endpoint json headers auth).value = .ok d) :
    ∃ s, srv n (requestWire api method endpoint json headers auth) = .response s d := by
  revert h
  unfold PentaVisionAPI._request
  cases hs : srv n (requestWire api method endpoint json headers auth) with
  | response s b =>
    by_cases h4 : 400 ≤ s
    · simp [h4]
    · simp [h4]
  | clientError msg => simp
  | timeoutExpired => simp

theorem authenticate_trace_shape (crypto : Crypto) (srv : Server) (n : Nat)
    (api : PentaVisionAPI) :
    (api.authenticate crypto srv n).trace =
      [requestWire api "POST" API_HANDSHAKE_INIT
        [("api_key_hash", crypto.sha256Hex api.api_key)] [] false] ∨
    ∃ (ir : RespBody) (s : Nat),
      srv n (requestWire api "POST" API_HANDSHAKE_INIT
        [("api_key_hash", crypto.sha256Hex api.api_key)] [] false) =
          .response s ir ∧
      pyTruthy ir.nonce = true ∧
      (api.authenticate crypto srv n).trace =
        [requestWire api "POST" API_HANDSHAKE_INIT
          [("api_key_hash", crypto.sha256Hex api.api_key)] [] false,
         requestWire api "POST" API_HANDSHAKE_COMPLETE
          [("nonce", ir.nonce.getD ""),
           ("response", crypto.hmacSha256Hex api.api_key (ir.challenge.getD "")),
           ("client_info.type", "home_assistant"),
           ("client_info.version", "1.0.0")]
          [("X-API-Key", api.api_key)] false] := by
  cases hv : (api._request srv n "POST" API_HANDSHAKE_INIT
      [("api_key_hash", crypto.sha256Hex api.api_key)] [] false).value with
  | error e =>
    left
    simp only [PentaVisionAPI.authenticate, hv]
    rw [request_trace_eq]
  | ok ir =>
    by_cases herr : ir.error.isSome = true
    · left
      simp [PentaVisionAPI.authenticate, hv, herr, request_trace_eq]
    · by_cases hch : pyTruthy ir.challenge = true
      · by_cases hn : pyTruthy ir.nonce = true
        · right
          obtain ⟨s, hsv⟩ := request_ok_inv api srv n "POST" API_HANDSHAKE_INIT
            [("api_key_hash", crypto.sha256Hex api.api_key)] [] false ir hv
          refine ⟨ir, s, hsv, hn, ?_⟩
          simp [PentaVisionAPI.authenticate, hv, herr, hch, hn, request_trace_eq]
          repeat' split
          all_goals rfl
        · left
          have hn2 : pyTruthy ir.nonce = false := by
            cases hx : pyTruthy ir.nonce
            · rfl
            · exact absurd hx hn
          simp [PentaVisionAPI.authenticate, hv, herr, hch, hn2, request_trace_eq]
      · left
        have hch2 : pyTruthy ir.challenge = false := by
          cases hx : pyTruthy ir.challenge
          · rfl
          · exact absurd hx hch
        simp [PentaVisionAPI.authenticate, hv, herr, hch2, request_trace_eq]

/-- C8 amended: under the one-wayness assumptions on the hash primitives
(their outputs differ from the raw key) and for servers whose challenge
bodies do not echo the raw key back, the requests issued by
`authenticate`, `get_status` and `get_cameras` never carry the raw API
key in body, query or headers — except the `X-API-Key` header of the
handshake-complete request; however, the stream-URL builders place the
raw key in the `api_key` query parameter exactly when no truthy session
token is held. -/
theorem c8_api_key_exposure_amended (crypto : Crypto) (srv : Server) (n : Nat)
    (api : PentaVisionAPI) (camera_id : String)
    (hs : crypto.sha256Hex api.api_key ≠ api.api_key)
    (hh : ∀ c, crypto.hmacSha256Hex api.api_key c ≠ api.api_key)
    (hsrv : ∀ (m : Nat) (r : WireRequest) (s : Nat) (b : RespBody),
      srv m r = .response s b → b.nonce ≠ some api.api_key)
    (hk1 : api.api_key ≠ "home_assistant")
    (hk2 : api.api_key ≠ "1.0.0")
    (htok : ∀ t, api.session_token = some t → t ≠ api.api_key) :
    ((api.authenticate crypto srv n).trace.all
        (fun r => ! (r.exposesVal api.api_key)) = true) ∧
    ((api.get_status srv n).trace.all
        (fun r => ! (r.exposesVal api.api_key)) = true) ∧
    ((api.get_cameras srv n).trace.all
        (fun r => ! (r.exposesVal api.api_key)) = true) ∧
    (pyTruthy api.session_token = false →
      (api.get_mjpeg_url camera_id).exposesVal api.api_key = true) ∧
    (pyTruthy api.session_token = true →
      (api.get_mjpeg_url camera_id).exposesVal api.api_key = false) := by
  have hS : (crypto.sha256Hex api.api_key == api.api_key) = false :=
    beq_eq_false_iff_ne.mpr hs
  have hHm : ∀ c, (crypto.hmacSha256Hex api.api_key c == api.api_key) = false :=
    fun c => beq_eq_false_iff_ne.mpr (hh c)
  have hHA : (("home_assistant" : String) == api.api_key) = false :=
    beq_eq_false_iff_ne.mpr (fun hEq => hk1 hEq.symm)
  have hV10 : (("1.0.0" : String) == api.api_key) = false :=
    beq_eq_false_iff_ne.mpr (fun hEq => hk2 hEq.symm)
  have hInit : (requestWire api "POST" API_HANDSHAKE_INIT
      [("api_key_hash", crypto.sha256Hex api.api_key)] [] false).exposesVal
        api.api_key = false := by
    simp [WireRequest.exposesVal, requestWire, hS]
  have hPlain : ∀ (m e : String),
      (requestWire api m e [] [] true).exposesVal api.api_key = false := by
    intro m e
    rcases hcase : api.session_token with _ | t
    · simp [WireRequest.exposesVal, requestWire, hcase, pyTruthy]
    · have hne : (t == api.api_key) = false :=
        beq_eq_false_iff_ne.mpr (htok t hcase)
      cases hte : t.isEmpty <;>
        simp [WireRequest.exposesVal, requestWire, hcase, pyTruthy, hte, hne]
  refine ⟨?_, ?_, ?_, ?_, ?_⟩
  · rcases authenticate_trace_shape crypto srv n api with h | ⟨ir, s, hsv, hn, h⟩
    · rw [h]
      simp [hInit]
    · rw [h]
      have hnn : (ir.nonce.getD "" == api.api_key) = false := by
        have hne := hsrv n _ s ir hsv
        rcases hng : ir.nonce with _ | nn
        · rw [hng] at hn
          exact absurd hn (by simp [pyTruthy])
        · simp only [hng, Option.getD_some]
          refine beq_eq_false_iff_ne.mpr ?_
          intro hEq
          exact hne (by rw [hng, hEq])
      simp [hInit, WireRequest.exposesVal, requestWire, hnn, hHm, hHA, hV10,
        API_HANDSHAKE_COMPLETE, hs]
  · simp only [PentaVisionAPI.get_status]
    rw [request_trace_eq]
    simp [hPlain]
  · rw [get_cameras_trace_eq, request_trace_eq]
    simp [hPlain]
  · intro h
    simp [PentaVisionAPI.get_mjpeg_url, h, StreamUrl.exposesVal]
  · intro h
    rcases hcase : api.session_token with _ | t
    · rw [hcase] at h
      exact absurd h (by simp [pyTruthy])
    · have hne : (t == api.api_key) = false :=
        beq_eq_false_iff_ne.mpr (htok t hcase)
      rw [hcase] at h
      simp [PentaVisionAPI.get_mjpeg_url, h, hcase, StreamUrl.exposesVal, hne,
        htok t hcase]

theorem c8_api_key_exposure_amended_witness :
    ((apiNoTok.authenticate crypto0 srvOK 0).trace.all
        (fun r => ! (r.exposesVal "secret")) = true) ∧
    ((apiNoTok.get_status srvOK 0).trace.all
        (fun r => ! (r.exposesVal "secret")) = true) ∧
    ((apiNoTok.get_cameras srvOK 0).trace.all
        (fun r => ! (r.exposesVal "secret")) = true) ∧
    (pyTruthy apiNoTok.session_token = false →
      (apiNoTok.get_mjpeg_url "cam").exposesVal "secret" = true) ∧
    (pyTruthy apiNoTok.session_token = true →
      (apiNoTok.get_mjpeg_url "cam").exposesVal "secret" = false) := by
  exact c8_api_key_exposure_amended crypto0 srvOK 0 apiNoTok "cam"
    (by decide) (fun _ => by simp [crypto0, apiNoTok])
    (by intro m r s b hb; cases hb; decide)
    (by decide) (by decide)
    (fun t h => by cases h)

/-- C8 counterexample: a client holding no session token builds an MJPEG
stream URL that carries the raw API key `"secret"` as the `api_key` query
parameter — the key is placed in a URL destined for the wire outside the
allowed `X-API-Key` header of the handshake-complete request. -/
theorem c8_stream_url_counterexample :
    (apiNoTok.get_mjpeg_url "cam").exposesVal "secret" = true ∧
    (apiNoTok.get_mjpeg_url "cam").query = [("api_key", "secret")] := by
  exact ⟨rfl, rfl⟩

end PentaVision
